import Mathlib

/-!
Shallow embedding of the authentication and authorization core of the
techprep backend (Flask + SQLAlchemy + PyJWT), translated from
`src/backend/models.py`, `src/backend/decorators.py`, `src/backend/config.py`,
`src/backend/routes/auth_routes.py`, `src/backend/routes/post_routes.py`, and
`src/backend/routes/group_routes.py`.

Modelling conventions:
 - Machine state (the PostgreSQL store) is an explicit `Store` value; route
   handlers take it and return `Except HttpError` results, mirroring the
   Flask error codes (400/401/403/404/500).
 - Time is integer unix seconds, passed explicitly where the Python code
   reads `datetime.utcnow()` / the verification clock.
 - The werkzeug salted password hash and the PyJWT HS256 MAC are ideal
   primitives: a hash/signature is an opaque constructor application carrying
   the hashed password resp. the signing secret, so that hash comparison and
   signature checking behave exactly as the (collision-free) primitives do.
 - `bleach`-based sanitizers are external collaborators that the spec places
   out of scope; they are modelled as the identity on already-sanitized input.
 - Python attribute and keyword-argument errors matter for this snapshot:
   `models.py` declares the ORM `Post` without a `group_id` column and
   `Comment` without an `author` attribute, while the routes use both.  The
   declared attribute sets and call keyword lists are embedded explicitly so
   that the resulting `TypeError`/`AttributeError` control flow is visible.
-/

namespace TechPrep

/-! ### Credential store (werkzeug, used by `models.py` `User`) -/

/-- Ideal salted one-way hash produced by werkzeug `generate_password_hash`.
The constructor is opaque to the code (never inspected, only compared by
re-hashing), so carrying the salt and password inside it is a faithful
functional model of a collision-free salted hash. -/
inductive PasswordHashV where
  | hashed (salt : Nat) (password : String)
deriving DecidableEq, Repr

/-- werkzeug `generate_password_hash(password)`; the random salt drawn by
werkzeug is an explicit parameter. -/
def generate_password_hash (salt : Nat) (password : String) : PasswordHashV :=
  .hashed salt password

/-- werkzeug `check_password_hash(pwhash, password)`: re-derives the hash with
the stored salt and compares. Total (returns `false` on mismatch, never
raises). -/
def check_password_hash (h : PasswordHashV) (candidate : String) : Bool :=
  match h with
  | .hashed _ password => password == candidate

/-! ### PyJWT model (`jwt.encode` / `jwt.decode`, HS256) -/

/-- The claim set built by `User.generate_token` (`models.py` lines 92-96). -/
structure TokenPayload where
  user_id : Nat
  username : String
  /-- unix timestamp `exp = datetime.utcnow() + timedelta(seconds=expires_in)` -/
  exp : Nat
deriving DecidableEq, Repr

/-- A wire token: either a well-formed JWT whose MAC was produced with some
secret (ideal MAC: the signature determines the signing secret and protects
the payload), or any other string, which PyJWT rejects as malformed. -/
inductive TokenString where
  | signed (payload : TokenPayload) (sigSecret : String)
  | malformed (raw : String)
deriving DecidableEq, Repr

inductive JwtError where
  | expiredSignature
  | invalidToken
deriving DecidableEq, Repr

/-- `jwt.encode(payload, secret, algorithm='HS256')`. -/
def jwt_encode (payload : TokenPayload) (secret : String) : TokenString :=
  .signed payload secret

/-- `jwt.decode(token, secret, algorithms=['HS256'])` at verification time
`now`.  PyJWT (2.x, which this code requires since it returns the encoded
token as a JSON `str`) first checks the signature, then validates the `exp`
claim, raising `ExpiredSignatureError` when `exp <= now` (`_validate_exp`
raises when `exp <= now - leeway`, and the default leeway is 0). -/
def jwt_decode (token : TokenString) (secret : String) (now : Nat) :
    Except JwtError TokenPayload :=
  match token with
  | .malformed _ => .error .invalidToken
  | .signed payload sigSecret =>
    if sigSecret ≠ secret then .error .invalidToken
    else if payload.exp ≤ now then .error .expiredSignature
    else .ok payload

/-! ### Configuration (`config.py`) -/

/-- The configuration values the token service reads (`config.py` lines
32-33); values come from the environment with the defaults shown there. -/
structure Config where
  jwt_secret_key : String
  jwt_access_token_expires : Nat
deriving DecidableEq, Repr

/-- The literal defaults from `config.py`. -/
def defaultConfig : Config :=
  { jwt_secret_key := "dev-jwt-secret-CHANGE-IN-PRODUCTION"
    jwt_access_token_expires := 86400 }

/-! ### Data model rows (`models.py` plus migration `b1c2d3e4f5a6`) -/

/-- `users` table row / ORM `User` (`models.py` lines 42-67). -/
structure User where
  id : Nat
  username : String
  email : String
  password_hash : PasswordHashV
  is_active : Bool
  last_login : Option Nat
deriving DecidableEq, Repr

/-- `User.set_password` (`models.py` lines 69-71). -/
def User.set_password (u : User) (salt : Nat) (password : String) : User :=
  { u with password_hash := generate_password_hash salt password }

/-- `User.check_password` (`models.py` lines 73-75). -/
def User.check_password (u : User) (password : String) : Bool :=
  check_password_hash u.password_hash password

/-- A row of the `posts` table.  The columns are the ones mapped in
`models.py` lines 21-32 plus the `group_id` column added to the table by
migration `b1c2d3e4f5a6_add_group_id_to_posts.py` (which the ORM class does
not map - see `post_mapped_attrs`). -/
structure PostRow where
  id : Nat
  title : String
  content : String
  tags : List String
  course : Option String
  code : Option String
  user_id : Nat
  group_id : Option Nat
deriving DecidableEq, Repr

/-- `comments` table row / ORM `Comment` (`models.py` lines 133-158). -/
structure CommentRow where
  id : Nat
  content : String
  user_id : Nat
  post_id : Nat
deriving DecidableEq, Repr

/-- `groups` table row / ORM `Group` (`models.py` lines 167-193). -/
structure GroupRow where
  id : Nat
  name : String
  description : Option String
  creator_id : Nat
deriving DecidableEq, Repr

/-- A row of the `group_members` association table (`models.py` lines
160-165). -/
structure Membership where
  user_id : Nat
  group_id : Nat
deriving DecidableEq, Repr

/-- The persistent store (the PostgreSQL database). -/
structure Store where
  users : List User
  posts : List PostRow
  comments : List CommentRow
  groups : List GroupRow
  group_members : List Membership
deriving DecidableEq, Repr

/-- `User.query.get(uid)` (primary-key lookup). -/
def Store.getUser (s : Store) (uid : Nat) : Option User :=
  s.users.find? (fun u => u.id == uid)

/-- `Post.query.get(pid)`. -/
def Store.getPost (s : Store) (pid : Nat) : Option PostRow :=
  s.posts.find? (fun p => p.id == pid)

/-- `Group.query.get(gid)`. -/
def Store.getGroup (s : Store) (gid : Nat) : Option GroupRow :=
  s.groups.find? (fun g => g.id == gid)

/-- `group.members.filter_by(id=uid).first() is not None`. -/
def Store.isMember (s : Store) (gid uid : Nat) : Bool :=
  s.group_members.any (fun m => m.group_id == gid && m.user_id == uid)

/-- `group.members.count()`. -/
def Store.memberCount (s : Store) (gid : Nat) : Nat :=
  (s.group_members.filter (fun m => m.group_id == gid)).length

/-- The ids of the members of group `gid` (the user side of
`group.members`). -/
def Store.membersOf (s : Store) (gid : Nat) : List Nat :=
  (s.group_members.filter (fun m => m.group_id == gid)).map (fun m => m.user_id)

/-! ### Token service (`models.py` `User.generate_token` / `User.verify_token`) -/

/-- `User.generate_token(expires_in)` (`models.py` lines 77-97): builds the
payload with `exp = now + expires_in` (config default when `None`) and signs
it with `JWT_SECRET_KEY`. -/
def User.generate_token (u : User) (cfg : Config) (now : Nat)
    (expires_in : Option Nat) : TokenString :=
  let e := expires_in.getD cfg.jwt_access_token_expires
  jwt_encode { user_id := u.id, username := u.username, exp := now + e }
    cfg.jwt_secret_key

/-- `User.verify_token(token)` (`models.py` lines 99-118): decodes with
`JWT_SECRET_KEY`, returning `None` on `ExpiredSignatureError` or
`InvalidTokenError`, otherwise `User.query.get(payload['user_id'])`. -/
def User.verify_token (cfg : Config) (s : Store) (token : TokenString)
    (now : Nat) : Option User :=
  match jwt_decode token cfg.jwt_secret_key now with
  | .error _ => none
  | .ok payload => s.getUser payload.user_id

/-! ### HTTP outcomes and the authentication gate -/

/-- The outward response classes used by the routes (the message is the
`error` string of the JSON body). -/
inductive HttpError where
  | badRequest (msg : String)
  | unauthorized (msg : String)
  | forbidden (msg : String)
  | notFound (msg : String)
  | internalError (msg : String)
deriving DecidableEq, Repr

/-- The `Authorization` request header when present: the bearer token,
optionally written with the `Bearer ` scheme in front (the gate strips the
scheme and keeps the token either way). An absent or empty (falsy) header is
`none` at the call sites. -/
structure AuthHeader where
  hasScheme : Bool
  token : TokenString
deriving DecidableEq, Repr

/-- `if token.startswith('Bearer '): token = token[7:]` - the extracted
token is the same whether or not the scheme was written. -/
def stripBearer (h : AuthHeader) : TokenString := h.token

/-- The `login_required` decorator (`decorators.py` lines 13-40): 401 when
the header is absent, 401 when `User.verify_token` yields `None` (invalid or
expired token, or live user record gone), otherwise the resolved user is
installed as `g.current_user` and the wrapped operation proceeds. -/
def login_required (cfg : Config) (s : Store) (hdr : Option AuthHeader)
    (now : Nat) : Except HttpError User :=
  match hdr with
  | none => .error (.unauthorized "Authorization token required")
  | some h =>
    match User.verify_token cfg s (stripBearer h) now with
    | none => .error (.unauthorized "Invalid or expired token")
    | some u => .ok u

/-- The `/auth/login` route (`auth_routes.py` lines 90-136), after input
presence checks: look the user up by username, verify the password, refuse a
deactivated account, then record `last_login` and return a fresh token. -/
def login (cfg : Config) (s : Store) (username password : String)
    (now : Nat) : Except HttpError (Store × TokenString) :=
  match s.users.find? (fun u => u.username == username) with
  | none => .error (.unauthorized "Invalid username or password")
  | some user =>
    if ¬ user.check_password password then
      .error (.unauthorized "Invalid username or password")
    else if ¬ user.is_active then
      .error (.unauthorized "Account is deactivated")
    else
      let user' := { user with last_login := some now }
      let s' := { s with
        users := s.users.map (fun v => if v.id == user.id then user' else v) }
      .ok (s', user'.generate_token cfg now none)

/-! ### Claim C7 and C8 theorems -/

/-- Claim C7: for every user and every non-empty password P, verifying
credential P immediately after setting credential P returns true, and
verifying any other password returns false.  `check_password` is a total
`Bool`-valued function, so it returns `false` on a mismatch rather than
raising. -/
theorem C7_credential_roundtrip (u : User) (salt : Nat) (p p' : String)
    (_hp : p ≠ "") (hne : p' ≠ p) :
    (u.set_password salt p).check_password p = true ∧
    (u.set_password salt p).check_password p' = false := by
  refine ⟨?_, ?_⟩
  · simp [User.set_password, User.check_password, generate_password_hash,
      check_password_hash]
  · simp [User.set_password, User.check_password, generate_password_hash,
      check_password_hash]
    exact fun h => hne h.symm

/-- Witness for C7 at a concrete user and passwords. -/
theorem C7_credential_roundtrip_witness :
    let u : User :=
      { id := 1, username := "alice", email := "alice@example.com",
        password_hash := .hashed 0 "old", is_active := true,
        last_login := none }
    (u.set_password 7 "Passw0rd").check_password "Passw0rd" = true ∧
    (u.set_password 7 "Passw0rd").check_password "Passw0rdX" = false :=
  C7_credential_roundtrip _ 7 "Passw0rd" "Passw0rdX" (by decide) (by decide)

/-- Claim C8: a token produced by signing any claim set with a secret
different from the server-held `JWT_SECRET_KEY` never verifies: for every
store, payload and verification time, `User.verify_token` yields `None`
(the Invalid outcome), never a resolved identity. -/
theorem C8_tamper_resistance (cfg : Config) (s : Store)
    (payload : TokenPayload) (secret' : String)
    (h : secret' ≠ cfg.jwt_secret_key) (now : Nat) :
    User.verify_token cfg s (jwt_encode payload secret') now = none := by
  simp [User.verify_token, jwt_encode, jwt_decode, h]

/-- Witness for C8: a token signed with the secret "attacker" is rejected
against the default server secret. -/
theorem C8_tamper_resistance_witness :
    User.verify_token defaultConfig
      { users := [], posts := [], comments := [], groups := [],
        group_members := [] }
      (jwt_encode { user_id := 1, username := "alice", exp := 99999 }
        "attacker") 0 = none :=
  C8_tamper_resistance defaultConfig _ _ "attacker" (by decide) 0

/-! ### Claim C3: token round-trip and expiry -/

/-- Helper: a successful primary-key lookup returns a user bearing the looked
up id. -/
theorem Store.getUser_id {s : Store} {uid : Nat} {u : User}
    (h : s.getUser uid = some u) : u.id = uid := by
  have hp := List.find?_some h
  simpa using hp

def c3User : User :=
  { id := 1, username := "alice", email := "alice@example.com",
    password_hash := .hashed 0 "Passw0rd", is_active := true,
    last_login := none }

def c3Store : Store :=
  { users := [c3User], posts := [], comments := [], groups := [],
    group_members := [] }

/-- Claim C3 counterexample: with ttl T = 0, verifying immediately after
issuing yields `None` (Invalid), not the subject: the encoded `exp` equals
the verification instant and PyJWT treats `exp <= now` as expired (in
practice the sub-second truncation of the issuance clock makes a ttl-0 token
expired at once as well).  The subject user is present in the store, so the
failure is the expiry check, refuting the claim as stated at T = 0. -/
theorem C3_counterexample :
    c3Store.getUser c3User.id = some c3User ∧
    User.verify_token defaultConfig c3Store
      (c3User.generate_token defaultConfig 1000 (some 0)) 1000 = none := by
  constructor
  · rfl
  · rfl

/-- Claim C3 (amended): for every identity and every positive ttl T, a token
verified immediately after issue resolves to the encoded subject (the stored
user with the encoded id and handle), and the same token verified at
now + T + 1 yields the Invalid outcome. -/
theorem C3_token_roundtrip (cfg : Config) (s : Store) (u : User) (T t0 : Nat)
    (hu : s.getUser u.id = some u) (hT : 1 ≤ T) :
    User.verify_token cfg s (u.generate_token cfg t0 (some T)) t0 = some u ∧
    User.verify_token cfg s (u.generate_token cfg t0 (some T)) (t0 + T + 1) =
      none := by
  constructor
  · simp [User.verify_token, User.generate_token, jwt_encode, jwt_decode,
      show ¬ (t0 + T ≤ t0) by omega, hu]
  · simp [User.verify_token, User.generate_token, jwt_encode, jwt_decode,
      show t0 + T ≤ t0 + T + 1 by omega]

/-- Witness for the amended C3 at ttl 5 and issue time 1000. -/
theorem C3_token_roundtrip_witness :
    User.verify_token defaultConfig c3Store
      (c3User.generate_token defaultConfig 1000 (some 5)) 1000 =
        some c3User ∧
    User.verify_token defaultConfig c3Store
      (c3User.generate_token defaultConfig 1000 (some 5)) 1006 = none :=
  C3_token_roundtrip defaultConfig c3Store c3User 5 1000 (by rfl) (by omega)

/-! ### Claim C4: the authentication gate -/

def c4Store : Store :=
  { users := [c3User], posts := [], comments := [], groups := [],
    group_members := [] }

/-- Helper: the gate admits a user exactly when token verification resolves
to that user. -/
theorem login_required_ok_iff (cfg : Config) (s : Store) (h : AuthHeader)
    (now : Nat) (u : User) :
    login_required cfg s (some h) now = .ok u ↔
      User.verify_token cfg s (stripBearer h) now = some u := by
  unfold login_required
  cases hv : User.verify_token cfg s (stripBearer h) now with
  | none => simp [hv]
  | some v => simp [hv]

/-- Claim C4: the `login_required` gate rejects with 401 when the bearer
header is absent, when the token is invalid or expired, and when the token
decodes but the subject user no longer exists in the store; it proceeds
(installing `g.current_user`) exactly when the token resolves to a live user,
and that user is a live record of the store. -/
theorem C4_auth_gate (cfg : Config) (s : Store) (now : Nat) :
    (login_required cfg s none now =
      .error (.unauthorized "Authorization token required")) ∧
    (∀ h : AuthHeader, User.verify_token cfg s (stripBearer h) now = none →
      login_required cfg s (some h) now =
        .error (.unauthorized "Invalid or expired token")) ∧
    (∀ (h : AuthHeader) (payload : TokenPayload),
      jwt_decode (stripBearer h) cfg.jwt_secret_key now = .ok payload →
      s.getUser payload.user_id = none →
      login_required cfg s (some h) now =
        .error (.unauthorized "Invalid or expired token")) ∧
    (∀ (h : AuthHeader) (u : User),
      login_required cfg s (some h) now = .ok u ↔
        User.verify_token cfg s (stripBearer h) now = some u) ∧
    (∀ (h : AuthHeader) (u : User),
      login_required cfg s (some h) now = .ok u → s.getUser u.id = some u) := by
  refine ⟨rfl, ?_, ?_, ?_, ?_⟩
  · intro h hv
    simp [login_required, hv]
  · intro h payload hd hg
    simp [login_required, User.verify_token, hd, hg]
  · intro h u
    exact login_required_ok_iff cfg s h now u
  · intro h u hok
    have hv : User.verify_token cfg s (stripBearer h) now = some u :=
      (login_required_ok_iff cfg s h now u).mp hok
    unfold User.verify_token at hv
    cases hd : jwt_decode (stripBearer h) cfg.jwt_secret_key now with
    | error e => rw [hd] at hv; cases hv
    | ok payload =>
      rw [hd] at hv
      have hid := Store.getUser_id hv
      rw [hid]
      exact hv

/-- Witness for C4: the missing-header and malformed-token rejections, and a
valid token for a live user passing the gate, at concrete inputs. -/
theorem C4_auth_gate_witness :
    login_required defaultConfig c4Store none 0 =
      .error (.unauthorized "Authorization token required") ∧
    login_required defaultConfig c4Store
      (some { hasScheme := true, token := .malformed "zzz" }) 0 =
      .error (.unauthorized "Invalid or expired token") ∧
    login_required defaultConfig c4Store
      (some { hasScheme := true,
              token := c3User.generate_token defaultConfig 0 none }) 10 =
      .ok c3User :=
  ⟨(C4_auth_gate defaultConfig c4Store 0).1,
   (C4_auth_gate defaultConfig c4Store 0).2.1 _ rfl,
   ((C4_auth_gate defaultConfig c4Store 10).2.2.2.1 _ _).mpr rfl⟩

/-! ### Claim C10: deactivated accounts -/

def c10User : User :=
  { id := 3, username := "carol", email := "carol@example.com",
    password_hash := generate_password_hash 1 "Passw0rd",
    is_active := false, last_login := none }

def c10Store : Store :=
  { users := [c10User], posts := [], comments := [], groups := [],
    group_members := [] }

/-- Claim C10: a previously issued, unexpired token of a user whose
`is_active` flag is false still authenticates - neither `User.verify_token`
nor `login_required` consults `is_active` - while password login for the
same account is refused with the deactivated-account 401. -/
theorem C10_inactive_user_token (cfg : Config) (s : Store) (u : User)
    (hdr : AuthHeader) (t0 T now : Nat) (pw : String)
    (hu : s.getUser u.id = some u) (hin : u.is_active = false)
    (htok : hdr.token = u.generate_token cfg t0 (some T))
    (hfresh : now < t0 + T)
    (hfind : s.users.find? (fun v => v.username == u.username) = some u)
    (hpw : u.check_password pw = true) :
    login_required cfg s (some hdr) now = .ok u ∧
    login cfg s u.username pw now =
      .error (.unauthorized "Account is deactivated") := by
  constructor
  · simp [login_required, stripBearer, htok, User.verify_token,
      User.generate_token, jwt_encode, jwt_decode,
      show ¬ (t0 + T ≤ now) by omega, hu]
  · simp [login, hfind, hpw, hin]

/-- Witness for C10: the concrete deactivated user `carol` passes the gate
with a fresh token but is refused at password login. -/
theorem C10_inactive_user_token_witness :
    login_required defaultConfig c10Store
      (some { hasScheme := true,
              token := c10User.generate_token defaultConfig 100 (some 60) })
      120 = .ok c10User ∧
    login defaultConfig c10Store "carol" "Passw0rd" 120 =
      .error (.unauthorized "Account is deactivated") :=
  C10_inactive_user_token defaultConfig c10Store c10User _ 100 60 120
    "Passw0rd" (by rfl) (by rfl) rfl (by omega) (by rfl) (by rfl)

/-! ### Validation and sanitization collaborators -/

/-- `validate_string_length(text, min_length, max_length)` from
`utils/validation.py` (only the boolean component; the message is response
plumbing): empty is rejected, then the length bounds are checked. -/
def validate_string_length (text : String) (minLength maxLength : Nat) :
    Bool :=
  if text.isEmpty then false
  else if text.length < minLength then false
  else if maxLength < text.length then false
  else true

/-- External `bleach`-based sanitizer (`utils/sanitization.py`), out of scope
per the spec; identity on already-sanitized input. -/
def sanitize_plain_text (t : String) : String := t

/-- External `bleach`-based sanitizer, out of scope per the spec; identity on
already-sanitized input. -/
def sanitize_html (t : String) : String := t

/-- External sanitizer for code snippets, out of scope per the spec; identity
on already-sanitized input. -/
def sanitize_code (t : String) : String := t

/-- Python truthiness of an optional integer JSON value (`if group_id:`):
`None` and `0` are falsy. -/
def pyTruthyOptNat : Option Nat → Bool
  | none => false
  | some n => n != 0

/-! ### The ORM attribute surface of this snapshot

`models.py` maps `Post` columns `id, title, content, tags, course, code,
user_id, created_at, updated_at` (lines 21-32) and gains `author` from the
`User.posts` backref (line 62); it does NOT map the `group_id` column that
migration `b1c2d3e4f5a6` adds to the table, and it defines no `group`
relationship.  `Comment` (lines 145-153) has `id, content, created_at,
user_id, post_id` and the relationships `user` and `post`; it has no
`author` attribute.  Reading an undeclared attribute raises
`AttributeError`; passing an unknown keyword to `__init__` raises
`TypeError`. -/

def post_mapped_attrs : List String :=
  ["id", "title", "content", "tags", "course", "code", "user_id",
   "created_at", "updated_at", "author"]

def comment_mapped_attrs : List String :=
  ["id", "content", "created_at", "user_id", "post_id", "user", "post"]

/-- The parameters of `Post.__init__` (`models.py` line 34). -/
def post_init_params : List String :=
  ["title", "content", "user_id", "tags", "course", "code"]

/-- The keyword arguments passed to `Post(...)` by `add_post`
(`post_routes.py` lines 132-140). -/
def add_post_init_call_kwargs : List String :=
  ["title", "content", "user_id", "tags", "course", "code", "group_id"]

/-- A Python call succeeds (no `TypeError`) only when every keyword passed is
a declared parameter. -/
def callKwargsOk (params args : List String) : Bool :=
  args.all (fun a => params.contains a)

/-! ### Post routes (`post_routes.py`) -/

/-- The JSON body accepted by `add_post`. -/
structure AddPostRequest where
  title : Option String
  content : Option String
  tags : List String
  course : Option String
  code : Option String
  group_id : Option Nat
deriving DecidableEq, Repr

/-- The next serial primary key for `posts`. -/
def new_post_id (s : Store) : Nat :=
  (s.posts.map (fun p => p.id)).foldr max 0 + 1

/-- `add_post` (`post_routes.py` lines 80-162), run with the
`login_required`-resolved `g.current_user`: requires `title` and `content`,
sanitizes and length-validates them, and when a (truthy) `group_id` is given
checks that the group exists (else 404) and that the requester is a member
(else 403).  It then evaluates `Post(title=..., content=..., user_id=...,
tags=..., course=..., code=..., group_id=group_id)`; since `Post.__init__`
(`models.py` line 34) has no `group_id` parameter this raises `TypeError`,
which the surrounding `except Exception` turns into rollback plus the 500
"Failed to create post" response. -/
def add_post (s : Store) (current_user : User) (data : AddPostRequest) :
    Except HttpError (Store × PostRow) :=
  match data.title, data.content with
  | some title0, some content0 =>
    let title := sanitize_plain_text title0
    let content := sanitize_html content0
    let code := match data.code with
      | some c => if c.isEmpty then none else some (sanitize_code c)
      | none => none
    if ¬ validate_string_length title 1 200 then
      .error (.badRequest "Title")
    else if ¬ validate_string_length content 1 50000 then
      .error (.badRequest "Content")
    else
      let tags := data.tags.map sanitize_plain_text
      let course := match data.course with
        | some c => if c.isEmpty then none else some (sanitize_plain_text c)
        | none => none
      let group_id := data.group_id
      let groupCheck : Except HttpError Unit :=
        if pyTruthyOptNat group_id then
          match group_id with
          | some gid =>
            match s.getGroup gid with
            | none => .error (.notFound "Group not found")
            | some _ =>
              if ¬ s.isMember gid current_user.id then
                .error
                  (.forbidden "You must be a member of the group to post in it")
              else .ok ()
          | none => .ok ()
        else .ok ()
      match groupCheck with
      | .error e => .error e
      | .ok _ =>
        if callKwargsOk post_init_params add_post_init_call_kwargs then
          let p : PostRow :=
            { id := new_post_id s, title := title, content := content,
              tags := tags, course := course, code := code,
              user_id := current_user.id, group_id := group_id }
          .ok ({ s with posts := s.posts ++ [p] }, p)
        else
          .error (.internalError "Failed to create post")
  | _, _ => .error (.badRequest "Title and content are required")

/-- The per-post inclusion predicate written in the `get_posts` loop
(`post_routes.py` lines 46-75), read off the row data: a post with no group
association is included; a group post is included only when an identity was
resolved, the group relationship is non-null and the identity is a member of
that group. -/
def post_visible (s : Store) (current_user : Option User) (p : PostRow) :
    Bool :=
  match p.group_id with
  | none => true
  | some gid =>
    match current_user with
    | none => false
    | some u =>
      match s.getGroup gid with
      | none => false
      | some _ => s.isMember gid u.id

/-- `get_posts` (`post_routes.py` lines 20-77): resolves the optional bearer
identity (an invalid token degrades to anonymous, it is not rejected), loads
all posts and filters them with the loop predicate.  The loop body begins
with `p.group_id`; the ORM `Post` of this snapshot does not map `group_id`,
so the first iteration raises `AttributeError`, which Flask converts to the
500 response - the filtered list is only reached when the post table is
empty. -/
def get_posts (cfg : Config) (s : Store) (hdr : Option AuthHeader)
    (now : Nat) : Except HttpError (List PostRow) :=
  let current_user : Option User :=
    match hdr with
    | none => none
    | some h => User.verify_token cfg s (stripBearer h) now
  if s.posts.isEmpty then .ok []
  else if ¬ post_mapped_attrs.contains "group_id" then
    .error (.internalError "Internal server error")
  else
    .ok (s.posts.filter (post_visible s current_user))

/-- `delete_post` (`post_routes.py` lines 165-185), run with the resolved
`g.current_user`: 404 when the post id is unknown, 403 when the requester is
not the author, otherwise the row is deleted. -/
def delete_post (s : Store) (current_user : User) (post_id : Nat) :
    Except HttpError Store :=
  match s.getPost post_id with
  | none => .error (.notFound "Resource not found")
  | some post =>
    if post.user_id ≠ current_user.id then
      .error (.forbidden "Unauthorized to delete this post")
    else
      .ok { s with posts := s.posts.filter (fun p => p.id != post_id) }

/-- `get_post_comments` (`post_routes.py` lines 188-201): no
`login_required`, no identity input at all; 404 when the post id is unknown,
otherwise it serializes `post.comments` reading `c.author.username`.  The
ORM `Comment` has a `user` relationship but no `author` attribute, so the
first comment raises `AttributeError` (500); only a comment-less post
returns (the empty) list. -/
def get_post_comments (s : Store) (post_id : Nat) :
    Except HttpError (List CommentRow) :=
  match s.getPost post_id with
  | none => .error (.notFound "Resource not found")
  | some _ =>
    let cs := s.comments.filter (fun c => c.post_id == post_id)
    if cs.isEmpty then .ok []
    else if ¬ comment_mapped_attrs.contains "author" then
      .error (.internalError "Internal server error")
    else .ok cs

/-! ### Group routes (`group_routes.py`) -/

/-- The next serial primary key for `groups`. -/
def new_group_id (s : Store) : Nat :=
  (s.groups.map (fun g => g.id)).foldr max 0 + 1

/-- `create_group` (`group_routes.py` lines 31-85), run with the resolved
`g.current_user`: requires a (truthy) name, sanitizes and length-validates
name and the optional description, inserts the group with the requester as
creator and auto-adds the creator as first member. -/
def create_group (s : Store) (current_user : User) (name0 : String)
    (description0 : Option String) :
    Except HttpError (Store × GroupRow) :=
  if name0.isEmpty then .error (.badRequest "Group name is required")
  else
    let name := sanitize_plain_text name0
    let description : Option String := match description0 with
      | some d => if d.isEmpty then none else some (sanitize_html d)
      | none => none
    if ¬ validate_string_length name 1 100 then
      .error (.badRequest "Group name")
    else
      let descOk := match description with
        | some d => validate_string_length d 0 1000
        | none => true
      if descOk = false then .error (.badRequest "Description")
      else
        let gid := new_group_id s
        let g : GroupRow :=
          { id := gid, name := name, description := description,
            creator_id := current_user.id }
        .ok ({ s with
                groups := s.groups ++ [g],
                group_members := s.group_members ++
                  [{ user_id := current_user.id, group_id := gid }] }, g)

/-- Write an updated group row back into the store. -/
def Store.putGroup (s : Store) (g : GroupRow) : Store :=
  { s with groups := s.groups.map (fun x => if x.id == g.id then g else x) }

/-- Description handling inside `update_group` (`group_routes.py` lines
125-131): a provided falsy (empty) description clears the field, otherwise
the sanitized value is length-validated and stored. -/
def apply_description (group : GroupRow) (nd : Option String) :
    Except HttpError GroupRow :=
  match nd with
  | none => .ok group
  | some d0 =>
    if d0.isEmpty then .ok { group with description := none }
    else
      let d := sanitize_html d0
      if ¬ validate_string_length d 0 1000 then
        .error (.badRequest "Description")
      else .ok { group with description := some d }

/-- `update_group` (`group_routes.py` lines 99-145), run with the resolved
`g.current_user`: `get_or_404` on the group id first, then the
creator-only check (403), then the optional name and description updates.
The whole body sits inside `try: ... except Exception:`; `get_or_404`
raises werkzeug `NotFound`, an `Exception` subclass, so an unknown group id
is swallowed by the handler and surfaces as the 500 "Failed to update
group" response, not as a 404. -/
def update_group (s : Store) (current_user : User) (group_id : Nat)
    (newName newDescription : Option String) : Except HttpError Store :=
  match s.getGroup group_id with
  | none => .error (.internalError "Failed to update group")
  | some group =>
    if group.creator_id ≠ current_user.id then
      .error (.forbidden "Only the group creator can update the group")
    else
      let step1 : Except HttpError GroupRow := match newName with
        | none => .ok group
        | some n0 =>
          let n := sanitize_plain_text n0
          if ¬ validate_string_length n 1 100 then
            .error (.badRequest "Group name")
          else .ok { group with name := n }
      match step1 with
      | .error e => .error e
      | .ok g1 =>
        match apply_description g1 newDescription with
        | .error e => .error e
        | .ok g2 => .ok (s.putGroup g2)

/-- `delete_group` (`group_routes.py` lines 148-174): `get_or_404` first,
creator-only check second, then the row (and, via the `secondary`
relationship, its membership rows) is deleted.  As in `update_group`, the
`get_or_404` sits inside the route's `try: ... except Exception:`, so an
unknown group id surfaces as the 500 "Failed to delete group" response. -/
def delete_group (s : Store) (current_user : User) (group_id : Nat) :
    Except HttpError Store :=
  match s.getGroup group_id with
  | none => .error (.internalError "Failed to delete group")
  | some group =>
    if group.creator_id ≠ current_user.id then
      .error (.forbidden "Only the group creator can delete the group")
    else
      .ok { s with
             groups := s.groups.filter (fun g => g.id != group_id),
             group_members :=
               s.group_members.filter (fun m => m.group_id != group_id) }

/-- `add_group_member` (`group_routes.py` lines 177-221), run with the
resolved `g.current_user`: `get_or_404` on the group first; with a
`user_id` in the body, the creator-only check (403) comes BEFORE the
`get_or_404` on that user; without one the requester adds themselves; a
duplicate membership is refused with 400.  Both `get_or_404` calls sit
inside the route's `try: ... except Exception:`, so an unknown group id or
an unknown body user id surfaces as the 500 "Failed to add member"
response, not as a 404. -/
def add_group_member (s : Store) (current_user : User) (group_id : Nat)
    (body_user_id : Option Nat) : Except HttpError Store :=
  match s.getGroup group_id with
  | none => .error (.internalError "Failed to add member")
  | some group =>
    let target : Except HttpError User :=
      match body_user_id with
      | some uid =>
        if group.creator_id ≠ current_user.id then
          .error (.forbidden "Only the group creator can add other members")
        else
          match s.getUser uid with
          | none => .error (.internalError "Failed to add member")
          | some u => .ok u
      | none => .ok current_user
    match target with
    | .error e => .error e
    | .ok user_to_add =>
      if s.isMember group_id user_to_add.id then
        .error (.badRequest "User is already a member of this group")
      else
        .ok { s with group_members := s.group_members ++
                [{ user_id := user_to_add.id, group_id := group_id }] }

/-- `remove_group_member` (`group_routes.py` lines 224-264), run with the
resolved `g.current_user`: `get_or_404` on the group AND on the target user
first, then the creator-or-self permission check (403), then the guard
refusing to remove the creator while `members.count() > 1` (400), then the
membership-existence check (400), and finally the removal.  Both
`get_or_404` calls sit inside the route's `try: ... except Exception:`, so
an unknown group id or an unknown target user surfaces as the 500 "Failed
to remove member" response, not as a 404. -/
def remove_group_member (s : Store) (current_user : User)
    (group_id user_id : Nat) : Except HttpError Store :=
  match s.getGroup group_id with
  | none => .error (.internalError "Failed to remove member")
  | some group =>
    match s.getUser user_id with
    | none => .error (.internalError "Failed to remove member")
    | some _ =>
      if current_user.id ≠ group.creator_id ∧ current_user.id ≠ user_id then
        .error
          (.forbidden
            "You can only remove yourself or you must be the group creator")
      else if user_id = group.creator_id ∧ 1 < s.memberCount group_id then
        .error
          (.badRequest
            "Group creator cannot leave while other members exist. Transfer ownership or delete the group.")
      else if ¬ s.isMember group_id user_id then
        .error (.badRequest "User is not a member of this group")
      else
        let kept := s.group_members.filter
          (fun m => !(m.group_id == group_id && m.user_id == user_id))
        .ok { s with group_members := kept }

/-! ### Claims C1, C2, C9: concrete stores exercising the post routes -/

def c1User1 : User :=
  { id := 1, username := "alice", email := "alice@example.com",
    password_hash := .hashed 0 "Passw0rd", is_active := true,
    last_login := none }

def c1User2 : User :=
  { id := 2, username := "bob", email := "bob@example.com",
    password_hash := .hashed 0 "Passw0rd", is_active := true,
    last_login := none }

def c1Group : GroupRow :=
  { id := 1, name := "grp", description := none, creator_id := 1 }

def c1Store : Store :=
  { users := [c1User1, c1User2], posts := [], comments := [],
    groups := [c1Group],
    group_members := [{ user_id := 1, group_id := 1 }] }

def c1Request : AddPostRequest :=
  { title := some "t", content := some "hello", tags := [], course := none,
    code := none, group_id := some 1 }

/-- Claim C1, evaluated on the code: the 404 (unknown group) and 403
(non-member) denials behave as claimed, but the success half fails - an
authenticated member of an existing group posting to it gets the 500
"Failed to create post" outcome and no stored post, because the `Post(...)`
call passes `group_id` and `Post.__init__` (`models.py` line 34) has no such
parameter (`TypeError`, caught by the route's `except Exception`). -/
theorem C1_group_post_creation :
    add_post c1Store c1User1 c1Request =
      .error (.internalError "Failed to create post") ∧
    add_post c1Store c1User2 c1Request =
      .error (.forbidden "You must be a member of the group to post in it") ∧
    add_post c1Store c1User1 { c1Request with group_id := some 99 } =
      .error (.notFound "Group not found") := by
  refine ⟨rfl, rfl, rfl⟩

def c2Post1 : PostRow :=
  { id := 1, title := "pub", content := "public post", tags := [],
    course := none, code := none, user_id := 1, group_id := none }

def c2Post2 : PostRow :=
  { id := 2, title := "grp", content := "group post", tags := [],
    course := none, code := none, user_id := 1, group_id := some 1 }

def c2Store : Store :=
  { users := [c1User1], posts := [c2Post1, c2Post2], comments := [],
    groups := [c1Group],
    group_members := [{ user_id := 1, group_id := 1 }] }

/-- Claim C2, evaluated on the code: the inclusion predicate written in the
`get_posts` loop matches the claim exactly (public row included for anyone,
group row only for a resolved member), but the endpoint itself returns the
500 outcome on any non-empty post table - anonymous or not - because the
loop reads `p.group_id` and the ORM `Post` of `models.py` maps no such
attribute (`AttributeError`), so the anonymous requester of the claimed
scenario receives an error, not the public post. -/
theorem C2_visibility_filter :
    get_posts defaultConfig c2Store none 0 =
      .error (.internalError "Internal server error") ∧
    post_visible c2Store none c2Post1 = true ∧
    post_visible c2Store none c2Post2 = false ∧
    post_visible c2Store (some c1User1) c2Post2 = true ∧
    c2Store.posts.filter (post_visible c2Store none) = [c2Post1] ∧
    c2Store.posts.filter (post_visible c2Store (some c1User1)) =
      [c2Post1, c2Post2] := by
  refine ⟨rfl, rfl, rfl, rfl, rfl, rfl⟩

def c9Store : Store :=
  { users := [c1User1], posts := [c2Post1, c2Post2],
    comments := [{ id := 1, content := "nice", user_id := 1, post_id := 2 }],
    groups := [c1Group],
    group_members := [{ user_id := 1, group_id := 1 }] }

/-- Claim C9, evaluated on the code: the comment-listing route indeed takes
no identity input at all (no `login_required`, no group-membership check -
the anonymous read of a comment-less group post succeeds), but it does not
return the comments as claimed: for any post with at least one comment the
serialization reads `c.author.username` while the ORM `Comment` only has a
`user` relationship, so the request fails with the 500 outcome. -/
theorem C9_comment_listing :
    get_post_comments c9Store 2 =
      .error (.internalError "Internal server error") ∧
    get_post_comments c9Store 1 = .ok [] ∧
    get_post_comments c9Store 99 = .error (.notFound "Resource not found") := by
  refine ⟨rfl, rfl, rfl⟩

/-! ### Helper lemmas about group membership -/

/-- Membership in the `group_members` relation agrees with the member-id
list. -/
theorem Store.isMember_iff {s : Store} {gid uid : Nat} :
    s.isMember gid uid = true ↔ uid ∈ s.membersOf gid := by
  simp only [Store.isMember, Store.membersOf, List.any_eq_true, List.mem_map,
    List.mem_filter, Bool.and_eq_true, beq_iff_eq]
  constructor
  · rintro ⟨m, hm, h1, h2⟩
    exact ⟨m, ⟨hm, h1⟩, h2⟩
  · rintro ⟨m, ⟨hm, h1⟩, h2⟩
    exact ⟨m, hm, h1, h2⟩

/-- A list containing two distinct elements has length at least two. -/
theorem one_lt_length_of_two_mem {l : List Nat} {a b : Nat} (ha : a ∈ l)
    (hb : b ∈ l) (hab : a ≠ b) : 1 < l.length := by
  match l with
  | [] => cases ha
  | [x] =>
    simp only [List.mem_singleton] at ha hb
    exact absurd (ha.trans hb.symm) hab
  | x :: y :: t =>
    simp only [List.length]
    omega

/-- `members.count()` is the length of the member-id list. -/
theorem Store.memberCount_eq (s : Store) (gid : Nat) :
    s.memberCount gid = (s.membersOf gid).length := by
  simp [Store.memberCount, Store.membersOf]

/-- When every membership row of group `gid` belongs to user `c`, removing
the pair `(c, gid)` leaves no row of group `gid`. -/
theorem remove_all_members {gm : List Membership} {gid c : Nat}
    (h : ∀ r ∈ gm, r.group_id = gid → r.user_id = c) :
    ((gm.filter (fun m => !(m.group_id == gid && m.user_id == c))).filter
      (fun m => m.group_id == gid)).map (fun m => m.user_id) = [] := by
  induction gm with
  | nil => rfl
  | cons r t ih =>
    have ht : ∀ x ∈ t, x.group_id = gid → x.user_id = c :=
      fun x hx => h x (List.mem_cons_of_mem _ hx)
    by_cases hgid : r.group_id = gid
    · have huid : r.user_id = c := h r (List.mem_cons_self _ _) hgid
      simp [List.filter_cons, hgid, huid]
      exact fun a ha hga => ⟨hga, ht a ha hga⟩
    · simp [List.filter_cons, hgid]
      exact fun a ha hga => ⟨hga, ht a ha hga⟩

/-- Each member id of group `gid` comes from a membership row of `gid`. -/
theorem membersOf_row {s : Store} {gid : Nat} {r : Membership}
    (hr : r ∈ s.group_members) (hgid : r.group_id = gid) :
    r.user_id ∈ s.membersOf gid := by
  simp only [Store.membersOf, List.mem_map, List.mem_filter, beq_iff_eq]
  exact ⟨r, ⟨hr, hgid⟩, rfl⟩

/-! ### Claim C5: the creator-removal guard -/

/-- Claim C5 (amended): with the group looked up, (a) a request to remove
the creator is denied whenever some other member remains, (b) when the
creator is the sole member their self-removal succeeds, leaving the group
row (and thus the creator-of-record) intact with an empty member set, and
(c) any successful removal of the creator can only happen from a state in
which no member other than the creator remained - the reachable-state form
of the original claim fails because other users may self-join after the
creator has left (see the counterexample). -/
theorem C5_creator_removal (s : Store) (g : GroupRow) (requester : User)
    (gid : Nat) (hg : s.getGroup gid = some g) :
    ((∃ m ∈ s.membersOf gid, m ≠ g.creator_id) →
      ∃ e, remove_group_member s requester gid g.creator_id = .error e) ∧
    (s.membersOf gid = [g.creator_id] → requester.id = g.creator_id →
      ∀ ur, s.getUser g.creator_id = some ur →
      ∃ s', remove_group_member s requester gid g.creator_id = .ok s' ∧
        s'.getGroup gid = some g ∧ s'.membersOf gid = []) ∧
    (∀ uid s', remove_group_member s requester gid uid = .ok s' →
      uid = g.creator_id → ∀ m ∈ s.membersOf gid, m = g.creator_id) := by
  refine ⟨?_, ?_, ?_⟩
  · rintro ⟨m, hm, hmne⟩
    simp only [remove_group_member, hg]
    cases hu : s.getUser g.creator_id with
    | none => exact ⟨_, rfl⟩
    | some ur =>
      by_cases hreq : requester.id = g.creator_id
      · by_cases hcm : g.creator_id ∈ s.membersOf gid
        · have hcount : 1 < s.memberCount gid := by
            rw [Store.memberCount_eq]
            exact one_lt_length_of_two_mem hm hcm hmne
          exact ⟨.badRequest "Group creator cannot leave while other members exist. Transfer ownership or delete the group.", by simp [hreq, hcount]⟩
        · by_cases h2 : 1 < s.memberCount gid
          · exact ⟨.badRequest "Group creator cannot leave while other members exist. Transfer ownership or delete the group.", by simp [hreq, h2]⟩
          · have hnm : ¬ s.isMember gid g.creator_id = true :=
              fun hmem => hcm (Store.isMember_iff.mp hmem)
            exact ⟨.badRequest "User is not a member of this group", by simp [hreq, h2, hnm]⟩
      · exact ⟨.forbidden "You can only remove yourself or you must be the group creator", by simp [hreq]⟩
  · intro hmem hreq ur hu
    have hcount : s.memberCount gid = 1 := by
      rw [Store.memberCount_eq, hmem]
      rfl
    have hisM : s.isMember gid g.creator_id = true := by
      rw [Store.isMember_iff, hmem]
      exact List.mem_singleton.mpr rfl
    refine ⟨{ s with group_members := s.group_members.filter (fun m => !(m.group_id == gid && m.user_id == g.creator_id)) }, ?_, hg, ?_⟩
    · simp [remove_group_member, hg, hu, hreq, hisM,
        show ¬ 1 < s.memberCount gid by omega]
    · have hall : ∀ r ∈ s.group_members, r.group_id = gid →
          r.user_id = g.creator_id := by
        intro r hr hgid
        have := membersOf_row hr hgid
        rw [hmem] at this
        exact List.mem_singleton.mp this
      exact remove_all_members hall
  · intro uid s' hok huid m hm
    subst huid
    simp only [remove_group_member, hg] at hok
    cases hu : s.getUser g.creator_id with
    | none =>
      simp only [hu] at hok
      exact Except.noConfusion hok
    | some ur =>
      simp only [hu] at hok
      by_cases hreq : requester.id = g.creator_id
      · by_cases h2 : 1 < s.memberCount gid
        · simp [hreq, h2] at hok
        · by_cases h3 : s.isMember gid g.creator_id = true
          · have hcm : g.creator_id ∈ s.membersOf gid :=
              Store.isMember_iff.mp h3
            by_cases hmc : m = g.creator_id
            · exact hmc
            · exfalso
              rw [Store.memberCount_eq] at h2
              exact h2 (one_lt_length_of_two_mem hm hcm hmc)
          · simp [hreq, h2, h3] at hok
      · simp [hreq] at hok

def c5G : GroupRow :=
  { id := 1, name := "grp", description := none, creator_id := 1 }

def c5S0 : Store :=
  { users := [c1User1, c1User2], posts := [], comments := [], groups := [],
    group_members := [] }

def c5S1 : Store :=
  { users := [c1User1, c1User2], posts := [], comments := [],
    groups := [c5G], group_members := [{ user_id := 1, group_id := 1 }] }

def c5S2 : Store := { c5S1 with group_members := [] }

def c5S3 : Store :=
  { c5S1 with group_members := [{ user_id := 2, group_id := 1 }] }

/-- Claim C5 counterexample to the reachable-state invariant: alice creates
a group (sole member and creator), removes herself (allowed: no other member
remains), then bob self-joins via the open add-self path - reaching a state
where the group exists with creator-of-record alice, alice is not a member,
and another member (bob) remains, contradicting "the member set excludes the
creator only when no other member remains". -/
theorem C5_counterexample :
    create_group c5S0 c1User1 "grp" none = .ok (c5S1, c5G) ∧
    remove_group_member c5S1 c1User1 1 1 = .ok c5S2 ∧
    add_group_member c5S2 c1User2 1 none = .ok c5S3 ∧
    c5S3.getGroup 1 = some c5G ∧
    c5G.creator_id = c1User1.id ∧
    c5S3.isMember 1 c1User1.id = false ∧
    c5S3.isMember 1 c1User2.id = true := by
  refine ⟨rfl, rfl, rfl, rfl, rfl, rfl, rfl⟩

def c5WStore : Store :=
  { users := [c1User1, c1User2], posts := [], comments := [],
    groups := [c5G],
    group_members := [{ user_id := 1, group_id := 1 },
                      { user_id := 2, group_id := 1 }] }

/-- Witness for C5: with another member present the creator's self-removal
is denied; with the creator as sole member it succeeds and empties the
member set while the group row survives. -/
theorem C5_creator_removal_witness :
    (∃ e, remove_group_member c5WStore c1User1 1 c5G.creator_id =
      .error e) ∧
    (∃ s', remove_group_member c5S1 c1User1 1 c5G.creator_id = .ok s' ∧
      s'.getGroup 1 = some c5G ∧ s'.membersOf 1 = []) :=
  ⟨(C5_creator_removal c5WStore c5G c1User1 1 rfl).1
      ⟨2, by decide, by decide⟩,
   (C5_creator_removal c5S1 c5G c1User1 1 rfl).2.1 (by decide) rfl c1User1
      rfl⟩

/-! ### Claim C6: NotFound versus Forbidden ordering -/

/-- Claim C6 (amended): only post delete follows the claimed pattern - an
unknown post id yields NotFound regardless of the requester's rights, an
existing post with a non-owner requester yields Forbidden, and the
not-found check precedes the permission check.  The four group mutations
run their `get_or_404` calls inside a blanket `except Exception`, so an
unknown group id - and, for member remove, an unknown target user - yields
the route's 500 failure outcome instead of NotFound, still regardless of
the requester's rights and before any permission evaluation, except that
member add-other checks creator rights before resolving the target user (a
non-creator naming an unknown user gets Forbidden).  When the addressed
resources exist and the authenticated requester lacks rights, the outcome
is Forbidden. -/
theorem C6_notfound_vs_forbidden (s : Store) (requester : User)
    (gid pid uid : Nat) (g : GroupRow) (p : PostRow) (target : User)
    (body : Option Nat) (nm nd : Option String) :
    (s.getPost pid = none →
      delete_post s requester pid =
        .error (.notFound "Resource not found")) ∧
    (s.getPost pid = some p → p.user_id ≠ requester.id →
      delete_post s requester pid =
        .error (.forbidden "Unauthorized to delete this post")) ∧
    (s.getGroup gid = none →
      update_group s requester gid nm nd =
        .error (.internalError "Failed to update group") ∧
      delete_group s requester gid =
        .error (.internalError "Failed to delete group") ∧
      add_group_member s requester gid body =
        .error (.internalError "Failed to add member") ∧
      remove_group_member s requester gid uid =
        .error (.internalError "Failed to remove member")) ∧
    (s.getGroup gid = some g → g.creator_id ≠ requester.id →
      update_group s requester gid nm nd =
        .error (.forbidden "Only the group creator can update the group") ∧
      delete_group s requester gid =
        .error (.forbidden "Only the group creator can delete the group") ∧
      add_group_member s requester gid (some uid) =
        .error (.forbidden "Only the group creator can add other members")) ∧
    (s.getGroup gid = some g → s.getUser uid = none →
      remove_group_member s requester gid uid =
        .error (.internalError "Failed to remove member")) ∧
    (s.getGroup gid = some g → s.getUser uid = some target →
      requester.id ≠ g.creator_id → requester.id ≠ uid →
      remove_group_member s requester gid uid =
        .error
          (.forbidden
            "You can only remove yourself or you must be the group creator")) ∧
    (s.getGroup gid = some g → g.creator_id = requester.id →
      s.getUser uid = none →
      add_group_member s requester gid (some uid) =
        .error (.internalError "Failed to add member")) := by
  refine ⟨?_, ?_, ?_, ?_, ?_, ?_, ?_⟩
  · intro hp
    simp [delete_post, hp]
  · intro hp hne
    simp [delete_post, hp, hne]
  · intro hg
    refine ⟨?_, ?_, ?_, ?_⟩ <;>
      simp [update_group, delete_group, add_group_member,
        remove_group_member, hg]
  · intro hg hne
    exact ⟨by simp [update_group, hg, hne], by simp [delete_group, hg, hne],
      by simp [add_group_member, hg, hne]⟩
  · intro hg hu
    simp [remove_group_member, hg, hu]
  · intro hg hu h1 h2
    simp [remove_group_member, hg, hu, h1, h2]
  · intro hg heq hu
    simp [add_group_member, hg, heq, hu]

def c6Store : Store :=
  { users := [c1User1, c1User2], posts := [], comments := [],
    groups := [c1Group],
    group_members := [{ user_id := 1, group_id := 1 }] }

/-- Claim C6 counterexample: for the group mutations an unknown target id
does NOT yield NotFound.  With no group 42 in the store, any requester
updating group 42 receives the 500 "Failed to update group" outcome, because
the route's blanket `except Exception` swallows the werkzeug `NotFound`
raised by `get_or_404`; likewise the rights-lacking bob (id 2) asking to
remove the nonexistent user 99 from the existing group 1 receives the 500
"Failed to remove member" outcome - neither the NotFound the claim demands
for a missing target id nor the Forbidden it demands for an existing target
with missing rights. -/
theorem C6_counterexample :
    c6Store.getGroup 42 = none ∧
    update_group c6Store c1User2 42 none none =
      .error (.internalError "Failed to update group") ∧
    c6Store.getGroup 1 = some c1Group ∧
    c6Store.getUser 99 = none ∧
    c1Group.creator_id ≠ c1User2.id ∧
    remove_group_member c6Store c1User2 1 99 =
      .error (.internalError "Failed to remove member") := by
  refine ⟨rfl, rfl, rfl, rfl, by decide, rfl⟩

/-- Witness for C6 at concrete stores: post delete 404s on an unknown id
and 403s for a non-owner; an unknown group id gives the 500 failure to a
non-creator; a known group id gives 403 to a non-creator; a non-creator
naming an unknown user gets 403 while the creator naming an unknown user
gets the 500 failure. -/
theorem C6_notfound_vs_forbidden_witness :
    delete_post c9Store c1User2 77 =
      .error (.notFound "Resource not found") ∧
    delete_post c9Store c1User2 1 =
      .error (.forbidden "Unauthorized to delete this post") ∧
    update_group c6Store c1User2 42 none none =
      .error (.internalError "Failed to update group") ∧
    update_group c6Store c1User2 1 none none =
      .error (.forbidden "Only the group creator can update the group") ∧
    add_group_member c6Store c1User2 1 (some 99) =
      .error (.forbidden "Only the group creator can add other members") ∧
    add_group_member c6Store c1User1 1 (some 99) =
      .error (.internalError "Failed to add member") ∧
    remove_group_member c6Store c1User2 1 99 =
      .error (.internalError "Failed to remove member") :=
  ⟨(C6_notfound_vs_forbidden c9Store c1User2 1 77 99 c1Group c2Post1
      c1User1 none none none).1 rfl,
   (C6_notfound_vs_forbidden c9Store c1User2 1 1 99 c1Group c2Post1
      c1User1 none none none).2.1 rfl (by decide),
   ((C6_notfound_vs_forbidden c6Store c1User2 42 7 99 c1Group c2Post1
      c1User1 none none none).2.2.1 rfl).1,
   ((C6_notfound_vs_forbidden c6Store c1User2 1 7 99 c1Group c2Post1
      c1User1 none none none).2.2.2.1 rfl (by decide)).1,
   ((C6_notfound_vs_forbidden c6Store c1User2 1 7 99 c1Group c2Post1
      c1User1 none none none).2.2.2.1 rfl (by decide)).2.2,
   (C6_notfound_vs_forbidden c6Store c1User1 1 7 99 c1Group c2Post1
      c1User1 none none none).2.2.2.2.2.2 rfl rfl rfl,
   (C6_notfound_vs_forbidden c6Store c1User2 1 7 99 c1Group c2Post1
      c1User1 none none none).2.2.2.2.1 rfl rfl⟩

end TechPrep
